import Mathlib

/-!
Shallow embedding of `src/Weather-app/weatherTask.ts` (a single-page weather
widget).  Pure helpers (`getHourlyForDay`, the display-hour formatter,
`getUnitParams`, `getCurrentSystem`, the switch-button label) are translated
as Lean functions.  The stateful core — `fetchTodayWeather` with its
request-id stale-response guard — is embedded as an explicit state machine:
each `await` in the source is a suspension point, the code between two
suspension points is one atomic segment, and an interleaving of several
in-flight fetch tasks is a schedule (a list of task indices) driving a step
function over a global state plus a task list.

Times in the Open-Meteo payload are local ISO strings ("2024-01-01T13:00").
They are embedded structurally as (day, hour, minute) triples; JavaScript
`Date` comparison of such strings coincides with comparison of the total
minute count, which is how the filter in `getHourlyForDay` is translated.
-/

namespace WeatherTask

/-- A calendar timestamp at minute granularity: `day` is an abstract ordinal
for the calendar day (the "YYYY-MM-DD" part of the source's ISO strings),
`hour` and `minute` the time-of-day components. -/
structure Timestamp where
  day : Nat
  hour : Nat
  minute : Nat
deriving DecidableEq, Repr

/-- `new Date(s).valueOf()` up to affine rescaling: total minutes.  Two ISO
local timestamps compare (as JS `Date`s) exactly as their minute counts do. -/
def Timestamp.toMinutes (t : Timestamp) : Nat :=
  t.day * 1440 + t.hour * 60 + t.minute

/-- A structurally valid clock reading: hour 0–23, minute 0–59. -/
def Timestamp.Valid (t : Timestamp) : Prop :=
  t.hour < 24 ∧ t.minute < 60

instance (t : Timestamp) : Decidable t.Valid := by
  unfold Timestamp.Valid; infer_instance

/-- `WeatherResponse.current_weather` from weatherTask.ts lines 58-63.
Numeric weather fields are embedded as `Int`. -/
structure CurrentWeather where
  temperature : Int
  windspeed : Int
  weathercode : Nat
  time : Timestamp
deriving DecidableEq, Repr

/-- `WeatherResponse.hourly` (lines 64-71): index-aligned parallel arrays. -/
structure HourlyBlock where
  time : List Timestamp
  temperature_2m : List Int
  weathercode : List Nat
  apparent_temperature : List Int
  relative_humidity_2m : List Int
  precipitation : List Int
deriving DecidableEq, Repr

/-- `WeatherResponse.daily` (lines 72-77); `time` holds day keys. -/
structure DailyBlock where
  time : List Nat
  temperature_2m_min : List Int
  temperature_2m_max : List Int
  weathercode : List Nat
deriving DecidableEq, Repr

/-- The forecast snapshot interface `WeatherResponse` (lines 57-78). -/
structure WeatherResponse where
  current_weather : CurrentWeather
  hourly : HourlyBlock
  daily : DailyBlock
deriving DecidableEq, Repr

/-- `Coordinates` (lines 120-125). -/
structure Coordinates where
  latitude : Int
  longitude : Int
  name : String
  country : String
deriving DecidableEq, Repr

/-- `HourlyData` (lines 237-241): one sample of the per-day hourly slice. -/
structure HourlyData where
  time : Timestamp
  temperature : Int
  weathercode : Nat
deriving DecidableEq, Repr

/-- The `.map((time, i) => ({time, temperature: ..., weathercode: ...}))`
stage of `getHourlyForDay` (lines 382-387): pair each timestamp with the
equally-indexed entries of the parallel arrays.  The source assumes the
arrays are index-aligned; out-of-range indices take a default value. -/
def hourlySamples (hourly : HourlyBlock) : List HourlyData :=
  hourly.time.enum.map (fun p =>
    { time := p.2
      temperature := hourly.temperature_2m.getD p.1 0
      weathercode := hourly.weathercode.getD p.1 0 })

/-- `getHourlyForDay` (lines 378-392): filter the hourly series to samples
whose timestamp lies in `[dateStr T00:00, dateStr T23:59]`, inclusive,
preserving order. -/
def getHourlyForDay (hourly : HourlyBlock) (dateStr : Nat) : List HourlyData :=
  let startT : Timestamp := ⟨dateStr, 0, 0⟩
  let endT : Timestamp := ⟨dateStr, 23, 59⟩
  (hourlySamples hourly).filter (fun h =>
    startT.toMinutes ≤ h.time.toMinutes && h.time.toMinutes ≤ endT.toMinutes)

/-- The display-hour formatter appearing verbatim in `renderHourly`
(lines 412-416) and `updateHourlyForecast` (lines 332-336):
0 → "12 AM", 1–11 → "h AM", 12 → "12 PM", 13+ → "h-12 PM". -/
def displayHour (hour : Nat) : String :=
  if hour = 0 then "12 AM"
  else if hour < 12 then toString hour ++ " AM"
  else if hour = 12 then "12 PM"
  else toString (hour - 12) ++ " PM"

/-- `Units.temperature` values (line 42). -/
inductive TempUnit | celsius | fahrenheit
deriving DecidableEq, Repr

/-- `Units.wind` values (line 43). -/
inductive WindUnit | kmh | mph
deriving DecidableEq, Repr

/-- `Units.precipitation` values (line 44). -/
inductive PrecipUnit | mm | inch
deriving DecidableEq, Repr

/-- The `Units` interface (lines 41-45), i.e. the shape of the mutable
`currentUnits` global. -/
structure Units where
  temperature : TempUnit
  wind : WindUnit
  precipitation : PrecipUnit
deriving DecidableEq, Repr

/-- `SystemType` (lines 212-216): the query-parameter triple returned by
`getUnitParams`. -/
structure SystemType where
  temperature_unit : TempUnit
  wind_speed_unit : WindUnit
  precipitation_unit : PrecipUnit
deriving DecidableEq, Repr

/-- `getUnitParams` (lines 218-235).  The stored preference blob
(`localStorage.getItem("unitPreferences")`, parsed) is a string-keyed map,
embedded as an association list.  The source overwrites the three fields of
the global `currentUnits` and returns the corresponding `SystemType`; the
first component below is the new `currentUnits`, the second the return
value.  A key compares against the literal "imperial"; any other value —
absence included — selects the metric unit. -/
def getUnitParams (prefs : List (String × String)) : Units × SystemType :=
  let u : Units :=
    { temperature := if prefs.lookup "Temperature" = some "imperial"
        then TempUnit.fahrenheit else TempUnit.celsius
      wind := if prefs.lookup "Wind Speed" = some "imperial"
        then WindUnit.mph else WindUnit.kmh
      precipitation := if prefs.lookup "Precipitation" = some "imperial"
        then PrecipUnit.inch else PrecipUnit.mm }
  (u, { temperature_unit := u.temperature
        wind_speed_unit := u.wind
        precipitation_unit := u.precipitation })

/-- The class (`metric` / `imperial`) of the `.option.selected` element of a
units-dropdown section. -/
inductive UnitChoice | metric | imperial
deriving DecidableEq, Repr

/-- `SystemState` (line 437). -/
inductive SystemState | metric | imperial | mixed
deriving DecidableEq, Repr

/-- `getCurrentSystem` (lines 439-459).  Input: per section, the selected
option's class, or `none` when no option is selected.  The source walks the
sections with two flags; `allMetric` survives iff every present selection
has class `metric`, `allImperial` iff every present selection has class
`imperial`. -/
def getCurrentSystem (sections : List (Option UnitChoice)) : SystemState :=
  let allMetric := sections.all (fun s =>
    match s with
    | none => true
    | some c => c = UnitChoice.metric)
  let allImperial := sections.all (fun s =>
    match s with
    | none => true
    | some c => c = UnitChoice.imperial)
  if allMetric then SystemState.metric
  else if allImperial then SystemState.imperial
  else SystemState.mixed

/-- The text/` dataset.state` pair written to `.switch-btn`. -/
structure SwitchBtnState where
  text : String
  dataState : SystemState
deriving DecidableEq, Repr

/-- The label/state assignment of `updateSwitchButton` (lines 461-476),
minus its trailing `hideSearchLoading()` call (modelled separately in the
DOM state). -/
def switchButtonFor (sections : List (Option UnitChoice)) : SwitchBtnState :=
  match getCurrentSystem sections with
  | SystemState.metric => { text := "Switch to Imperial", dataState := SystemState.metric }
  | SystemState.imperial => { text := "Switch to Metric", dataState := SystemState.imperial }
  | SystemState.mixed => { text := "Custom units", dataState := SystemState.mixed }

/-! ## DOM visibility state

One Boolean per element/class toggled by the fetch flow.  `…Hidden` means
the element currently carries the `display-none` class; `…BgShow` the
`bg-show` class; `searchBtnDisabled` the search button's `disabled` flag.
Text/attribute writes (temperatures, labels, icons) are not tracked here;
the data handed to the renderer is tracked in the render log instead. -/

structure Dom where
  errorFetchHidden : Bool
  mainContentHidden : Bool
  searchConHidden : Bool
  noResultHidden : Bool
  loadingConHidden : Bool
  searchLoadingHidden : Bool
  searchBtnDisabled : Bool
  todaySectionHidden : Bool
  todaySectionBgShow : Bool
  mainContTodayHidden : Bool
  infoCardsHidden : Bool
  forecastHidden : Bool
  hourForecastHidden : Bool
  weatherIconHidden : Bool
  todayCardBgShow : Bool
deriving DecidableEq, Repr

/-- `showSearchLoading` (lines 150-153). -/
def showSearchLoading (d : Dom) : Dom :=
  { d with searchLoadingHidden := false, searchBtnDisabled := true }

/-- `hideSearchLoading` (lines 155-158). -/
def hideSearchLoading (d : Dom) : Dom :=
  { d with searchLoadingHidden := true, searchBtnDisabled := false }

/-- `hideAllData` (lines 160-166): hide the five `DATA_SECTIONS` entries and
the weather icon. -/
def hideAllData (d : Dom) : Dom :=
  { d with todaySectionHidden := true, mainContTodayHidden := true,
           infoCardsHidden := true, forecastHidden := true,
           hourForecastHidden := true, weatherIconHidden := true }

/-- `showAllData` (lines 185-191). -/
def showAllData (d : Dom) : Dom :=
  { d with todaySectionHidden := false, mainContTodayHidden := false,
           infoCardsHidden := false, forecastHidden := false,
           hourForecastHidden := false, weatherIconHidden := false }

/-- `showError` (lines 193-197). -/
def showError (d : Dom) : Dom :=
  let d := hideAllData d
  { d with loadingConHidden := true, errorFetchHidden := false }

/-- `showSuccess` (lines 199-203). -/
def showSuccess (d : Dom) : Dom :=
  showAllData { d with loadingConHidden := true, errorFetchHidden := true }

/-- `showLoading` (lines 205-210). -/
def showLoading (d : Dom) : Dom :=
  { d with loadingConHidden := false, todaySectionBgShow := false,
           mainContTodayHidden := true, weatherIconHidden := true }

/-! ## The fetch task machine -/

/-- Resolution of `await getCoordinates(city)` (lines 127-148), as seen from
`fetchTodayWeather`: the geocoding HTTP call fails (`throw`), returns no
results (`null`), or returns coordinates. -/
inductive GeoOutcome
  | geoError
  | geoEmpty
  | geoFound (loc : Coordinates)
deriving DecidableEq, Repr

/-- Resolution of the forecast fetch (lines 570-576): non-ok HTTP status /
network failure (`throw` at line 571), a payload missing `current_weather`
or `hourly` (`throw` at line 575), or a good payload. -/
inductive FetchOutcome
  | httpError
  | badPayload
  | ok (data : WeatherResponse)
deriving DecidableEq, Repr

/-- The environment of one `fetchTodayWeather` invocation: its arguments
plus the (externally determined) outcome of each network call, and whether
the Today-section elements are missing from the document (in which case
line 596 throws after the render calls). -/
structure TaskSpec where
  city : String
  showLoader : Bool
  geo : GeoOutcome
  fetchRes : FetchOutcome
  domMissing : Bool
deriving DecidableEq, Repr

/-- Where an in-flight `fetchTodayWeather` task is suspended.  Each
constructor names the `await` the task is parked at; `idle` is a call that
has not yet run its synchronous head, `done` a returned task.

* `atGeo`       — line 540, `await getCoordinates(city)`
* `atNoResWait` — line 544, `await wait(2000)` on the no-results branch
* `atFetch`     — line 570, `await fetch(url)`
* `atJson`      — line 573, `await res.json()`
* `atOkWait`    — line 580, `await wait(2000)` before rendering
* `atErrWait`   — line 632, `await wait(3000)` inside `catch` -/
inductive Phase
  | idle
  | atGeo
  | atNoResWait
  | atFetch
  | atJson
  | atOkWait
  | atErrWait
  | done
deriving DecidableEq, Repr

/-- One in-flight (or finished) `fetchTodayWeather` invocation: its
environment, its suspension point, and the `requestId` it captured at
line 528 (meaningful once the task has started). -/
structure Task where
  spec : TaskSpec
  phase : Phase
  reqId : Nat
deriving DecidableEq, Repr

/-- One execution of the render block (lines 583-586 and the Today-section
updates).  `data` is the task-local payload handed to `updateInfoCards`,
`updateDailyForecast`, `populateDaysDropdown` and the Today section;
`hourlyFrom` is the snapshot the hourly panel is drawn from: `setHourlyToToday`
(line 181) reads the *global* `lastWeatherData`, not the task-local `data`
(`none` when `data.daily.time` is empty, in which case `setHourlyToToday`
returns before rendering). -/
structure RenderEvent where
  reqId : Nat
  data : WeatherResponse
  hourlyFrom : Option WeatherResponse
deriving DecidableEq, Repr

/-- The module-level mutable state of weatherTask.ts (lines 47-55), the
persisted preference blob, the tracked DOM flags, and the render log. -/
structure GState where
  latestRequestId : Nat
  lastCity : String
  lastWeatherData : Option WeatherResponse
  currentUnits : Units
  prefs : List (String × String)
  dom : Dom
  renderLog : List RenderEvent
deriving DecidableEq, Repr

/-- Advance one task by one atomic segment (the code between two
suspension points of `fetchTodayWeather`, lines 526-639), returning the
updated global state and task.  Segment boundaries and staleness checks are
exactly those of the source:

* `idle` → lines 527-537: set `lastCity`, capture `++latestRequestId`,
  reset the panels, optionally `showLoading`; suspend at `getCoordinates`.
* `atGeo` → a geocoding throw jumps to `catch` (suspending at its
  `wait(3000)`); otherwise line 541 checks staleness and returns, then the
  null branch suspends at `wait(2000)` while the success branch runs
  `getUnitParams` (line 556, mutating `currentUnits`) and suspends at
  `fetch`.
* `atNoResWait` → lines 546-553: **no staleness check**; hide the search
  loader and all data, hide the main panel, show the no-results panel.
* `atFetch` → line 571: a non-ok response throws to `catch`; otherwise
  suspend at `res.json()`.
* `atJson` → lines 574-578: a malformed payload throws to `catch`;
  otherwise `lastWeatherData := data` — **no staleness check** — and
  suspend at `wait(2000)`.
* `atOkWait` → line 581 checks staleness and returns; otherwise the render
  block runs (logged), then line 596 may throw to `catch` when the Today
  elements are missing, else lines 619-629 set the success classes.
* `atErrWait` → line 633 checks staleness and returns; otherwise
  `hideSearchLoading(); showError()`. -/
def stepTask (g : GState) (t : Task) : GState × Task :=
  match t.phase with
  | Phase.idle =>
      let g := { g with lastCity := t.spec.city,
                        latestRequestId := g.latestRequestId + 1 }
      let rid := g.latestRequestId
      let d := { g.dom with errorFetchHidden := true, mainContentHidden := false,
                            searchConHidden := false, noResultHidden := true }
      let d := if t.spec.showLoader then showLoading d else d
      ({ g with dom := d }, { t with phase := Phase.atGeo, reqId := rid })
  | Phase.atGeo =>
      match t.spec.geo with
      | GeoOutcome.geoError => (g, { t with phase := Phase.atErrWait })
      | GeoOutcome.geoEmpty =>
          if t.reqId ≠ g.latestRequestId then (g, { t with phase := Phase.done })
          else (g, { t with phase := Phase.atNoResWait })
      | GeoOutcome.geoFound _ =>
          if t.reqId ≠ g.latestRequestId then (g, { t with phase := Phase.done })
          else
            ({ g with currentUnits := (getUnitParams g.prefs).1 },
             { t with phase := Phase.atFetch })
  | Phase.atNoResWait =>
      let d := hideSearchLoading g.dom
      let d := hideAllData d
      let d := { d with mainContentHidden := true, errorFetchHidden := true,
                        noResultHidden := false }
      ({ g with dom := d }, { t with phase := Phase.done })
  | Phase.atFetch =>
      match t.spec.fetchRes with
      | FetchOutcome.httpError => (g, { t with phase := Phase.atErrWait })
      | _ => (g, { t with phase := Phase.atJson })
  | Phase.atJson =>
      match t.spec.fetchRes with
      | FetchOutcome.ok data =>
          ({ g with lastWeatherData := some data }, { t with phase := Phase.atOkWait })
      | _ => (g, { t with phase := Phase.atErrWait })
  | Phase.atOkWait =>
      match t.spec.fetchRes with
      | FetchOutcome.ok data =>
          if t.reqId ≠ g.latestRequestId then (g, { t with phase := Phase.done })
          else
            let ev : RenderEvent :=
              { reqId := t.reqId, data := data,
                hourlyFrom := if data.daily.time.isEmpty then none else g.lastWeatherData }
            let g := { g with renderLog := g.renderLog ++ [ev] }
            if t.spec.domMissing then
              (g, { t with phase := Phase.atErrWait })
            else
              let d := { g.dom with todayCardBgShow := true, loadingConHidden := true,
                                    todaySectionBgShow := true, weatherIconHidden := false,
                                    mainContTodayHidden := false, errorFetchHidden := true }
              let d := showSuccess (hideSearchLoading d)
              ({ g with dom := d }, { t with phase := Phase.done })
      | _ => (g, { t with phase := Phase.done })
  | Phase.atErrWait =>
      if t.reqId ≠ g.latestRequestId then (g, { t with phase := Phase.done })
      else
        let d := showError (hideSearchLoading g.dom)
        ({ g with dom := d }, { t with phase := Phase.done })
  | Phase.done => (g, t)

/-- The whole event-loop state: globals plus every issued task. -/
structure Sys where
  g : GState
  tasks : List Task
deriving DecidableEq, Repr

/-- Run one scheduler step: advance the `i`-th task by one segment (out of
range: no step).  The event loop is single-threaded, so an execution is a
sequence of such steps. -/
def stepSys (s : Sys) (i : Nat) : Sys :=
  match s.tasks[i]? with
  | none => s
  | some t =>
      let r := stepTask s.g t
      { g := r.1, tasks := s.tasks.set i r.2 }

/-- Run a schedule: a list of task indices, each advancing that task by one
segment. -/
def run (s : Sys) (sched : List Nat) : Sys :=
  sched.foldl stepSys s

/-- A pending `fetchTodayWeather` call that has not yet executed. -/
def mkTask (sp : TaskSpec) : Task :=
  { spec := sp, phase := Phase.idle, reqId := 0 }

/-- A system with globals `g` and one pending call per spec. -/
def mkSys (g : GState) (specs : List TaskSpec) : Sys :=
  { g := g, tasks := specs.map mkTask }

/-- The search-button handler (lines 730-737) for a nonempty query `city`:
`showSearchLoading(); showLoading();` then a `fetchTodayWeather(city)` call
(whose network outcomes are the remaining arguments). -/
def searchClick (s : Sys) (city : String) (geo : GeoOutcome)
    (f : FetchOutcome) (dm : Bool) : Sys :=
  { g := { s.g with dom := showLoading (showSearchLoading s.g.dom) },
    tasks := s.tasks ++ [mkTask { city := city, showLoader := true,
                                  geo := geo, fetchRes := f, domMissing := dm }] }

/-- The retry-button handler (lines 746-751): reset the error/main/search
panels, then call `fetchTodayWeather(lastCity)` — the city argument is the
current value of the `lastCity` global. -/
def retryClick (s : Sys) (geo : GeoOutcome) (f : FetchOutcome) (dm : Bool) : Sys :=
  let d := { s.g.dom with errorFetchHidden := true, mainContentHidden := false,
                          searchConHidden := false }
  { g := { s.g with dom := d },
    tasks := s.tasks ++ [mkTask { city := s.g.lastCity, showLoader := true,
                                  geo := geo, fetchRes := f, domMissing := dm }] }

/-! ## Pure-function claims -/

/-- Every sample produced by the map stage carries a timestamp of the
input series. -/
theorem mem_hourlySamples_time {hourly : HourlyBlock} {x : HourlyData}
    (hx : x ∈ hourlySamples hourly) : x.time ∈ hourly.time := by
  unfold hourlySamples at hx
  rcases List.mem_map.1 hx with ⟨p, hp, rfl⟩
  exact List.getElem?_mem (List.mem_enum_iff_getElem?.1 hp)

/-- Membership in `getHourlyForDay`, with the window bounds spelled out in
minutes: `dayKey 00:00` is minute `d * 1440` and `dayKey 23:59` is minute
`d * 1440 + 1439`. -/
theorem mem_getHourlyForDay {hourly : HourlyBlock} {d : Nat} {x : HourlyData} :
    x ∈ getHourlyForDay hourly d ↔
      x ∈ hourlySamples hourly ∧
        d * 1440 ≤ x.time.toMinutes ∧ x.time.toMinutes ≤ d * 1440 + 1439 := by
  unfold getHourlyForDay
  rw [List.mem_filter]
  simp only [Bool.and_eq_true, decide_eq_true_eq, Timestamp.toMinutes]
  constructor
  · rintro ⟨h1, h2, h3⟩
    exact ⟨h1, by omega, by omega⟩
  · rintro ⟨h1, h2, h3⟩
    exact ⟨h1, by omega, by omega⟩

/-- C4: `getHourlyForDay` is an order-preserving subsequence of the mapped
hourly series, containing exactly the samples whose timestamp falls within
`[dayKey 00:00, dayKey 23:59]` inclusive; under clock-validity of the input
timestamps every returned sample's date component equals the day key, the
result is never longer than the input, an empty series yields an empty
result, and a day key matching no sample yields an empty result. -/
theorem getHourlyForDay_spec (hourly : HourlyBlock) (d : Nat)
    (hv : ∀ t ∈ hourly.time, t.Valid) :
    List.Sublist (getHourlyForDay hourly d) (hourlySamples hourly) ∧
    (getHourlyForDay hourly d).length ≤ hourly.time.length ∧
    (∀ x, x ∈ getHourlyForDay hourly d ↔
        x ∈ hourlySamples hourly ∧
        d * 1440 ≤ x.time.toMinutes ∧ x.time.toMinutes ≤ d * 1440 + 1439) ∧
    (∀ x ∈ getHourlyForDay hourly d, x.time.day = d) ∧
    (hourly.time = [] → getHourlyForDay hourly d = []) ∧
    ((∀ t ∈ hourly.time, t.day ≠ d) → getHourlyForDay hourly d = []) := by
  have hlen : (hourlySamples hourly).length = hourly.time.length := by
    unfold hourlySamples
    rw [List.length_map, List.enum_length]
  have hday : ∀ x ∈ getHourlyForDay hourly d, x.time.day = d := by
    intro x hx
    rcases mem_getHourlyForDay.1 hx with ⟨hs, h1, h2⟩
    rcases hv x.time (mem_hourlySamples_time hs) with ⟨hh, hm⟩
    unfold Timestamp.toMinutes at h1 h2
    omega
  refine ⟨?_, ?_, fun _ => mem_getHourlyForDay, hday, ?_, ?_⟩
  · exact List.filter_sublist _
  · calc (getHourlyForDay hourly d).length
        ≤ (hourlySamples hourly).length := List.length_filter_le _ _
      _ = hourly.time.length := hlen
  · intro h
    unfold getHourlyForDay hourlySamples
    rw [h]
    rfl
  · intro hnone
    unfold getHourlyForDay
    rw [List.filter_eq_nil_iff]
    intro x hx hpx
    have hxmem : x ∈ getHourlyForDay hourly d := by
      unfold getHourlyForDay
      exact List.mem_filter.2 ⟨hx, hpx⟩
    exact hnone x.time (mem_hourlySamples_time hx) (hday x hxmem)

/-- C4 witness: a concrete hourly series with two days of samples, sliced
for day 1. -/
theorem getHourlyForDay_spec_witness :
    (∀ t ∈ (HourlyBlock.mk
        [⟨0, 23, 0⟩, ⟨1, 0, 0⟩, ⟨1, 13, 0⟩, ⟨1, 23, 59⟩, ⟨2, 0, 0⟩]
        [1, 2, 3, 4, 5] [0, 1, 2, 3, 61] [] [] []).time, t.Valid) ∧
    (∀ x ∈ getHourlyForDay (HourlyBlock.mk
        [⟨0, 23, 0⟩, ⟨1, 0, 0⟩, ⟨1, 13, 0⟩, ⟨1, 23, 59⟩, ⟨2, 0, 0⟩]
        [1, 2, 3, 4, 5] [0, 1, 2, 3, 61] [] [] []) 1, x.time.day = 1) ∧
    (getHourlyForDay (HourlyBlock.mk
        [⟨0, 23, 0⟩, ⟨1, 0, 0⟩, ⟨1, 13, 0⟩, ⟨1, 23, 59⟩, ⟨2, 0, 0⟩]
        [1, 2, 3, 4, 5] [0, 1, 2, 3, 61] [] [] []) 1).length ≤ 5 := by
  refine ⟨by decide, ?_, ?_⟩
  · exact (getHourlyForDay_spec (HourlyBlock.mk
        [⟨0, 23, 0⟩, ⟨1, 0, 0⟩, ⟨1, 13, 0⟩, ⟨1, 23, 59⟩, ⟨2, 0, 0⟩]
        [1, 2, 3, 4, 5] [0, 1, 2, 3, 61] [] [] []) 1 (by decide)).2.2.2.1
  · exact (getHourlyForDay_spec (HourlyBlock.mk
        [⟨0, 23, 0⟩, ⟨1, 0, 0⟩, ⟨1, 13, 0⟩, ⟨1, 23, 59⟩, ⟨2, 0, 0⟩]
        [1, 2, 3, 4, 5] [0, 1, 2, 3, 61] [] [] []) 1 (by decide)).2.1

/-- C5: the display-hour formatter is a pure total function on 0–23 with
0 → "12 AM", 1–11 → "h AM", 12 → "12 PM", 13–23 → "h-12 PM", and the four
boundary values are as specified. -/
theorem displayHour_spec :
    displayHour 0 = "12 AM" ∧ displayHour 11 = "11 AM" ∧
    displayHour 12 = "12 PM" ∧ displayHour 23 = "11 PM" ∧
    (∀ h : Nat, 1 ≤ h → h ≤ 11 → displayHour h = toString h ++ " AM") ∧
    (∀ h : Nat, 13 ≤ h → h ≤ 23 → displayHour h = toString (h - 12) ++ " PM") := by
  refine ⟨rfl, rfl, rfl, rfl, ?_, ?_⟩
  · intro h h1 h2
    interval_cases h <;> rfl
  · intro h h1 h2
    interval_cases h <;> rfl

/-- C5 witness: the formatter applied at 5 and 17. -/
theorem displayHour_spec_witness :
    displayHour 5 = "5 AM" ∧ displayHour 17 = "5 PM" :=
  ⟨displayHour_spec.2.2.2.2.1 5 (by decide) (by decide),
   displayHour_spec.2.2.2.2.2 17 (by decide) (by decide)⟩

/-- C8: unit resolution treats the three axes independently (each depends
only on its own key of the persisted map), resolves an absent key to the
metric unit, and on a fresh start (empty map) resolves all three axes to
metric. -/
theorem getUnitParams_spec :
    ((getUnitParams []).1.temperature = TempUnit.celsius ∧
     (getUnitParams []).1.wind = WindUnit.kmh ∧
     (getUnitParams []).1.precipitation = PrecipUnit.mm) ∧
    (∀ prefs : List (String × String), prefs.lookup "Temperature" = none →
       (getUnitParams prefs).1.temperature = TempUnit.celsius) ∧
    (∀ prefs : List (String × String), prefs.lookup "Wind Speed" = none →
       (getUnitParams prefs).1.wind = WindUnit.kmh) ∧
    (∀ prefs : List (String × String), prefs.lookup "Precipitation" = none →
       (getUnitParams prefs).1.precipitation = PrecipUnit.mm) ∧
    (∀ p q : List (String × String),
       p.lookup "Temperature" = q.lookup "Temperature" →
       (getUnitParams p).1.temperature = (getUnitParams q).1.temperature) ∧
    (∀ p q : List (String × String),
       p.lookup "Wind Speed" = q.lookup "Wind Speed" →
       (getUnitParams p).1.wind = (getUnitParams q).1.wind) ∧
    (∀ p q : List (String × String),
       p.lookup "Precipitation" = q.lookup "Precipitation" →
       (getUnitParams p).1.precipitation = (getUnitParams q).1.precipitation) := by
  refine ⟨⟨rfl, rfl, rfl⟩, ?_, ?_, ?_, ?_, ?_, ?_⟩
  · intro prefs h; simp [getUnitParams, h]
  · intro prefs h; simp [getUnitParams, h]
  · intro prefs h; simp [getUnitParams, h]
  · intro p q h; simp [getUnitParams, h]
  · intro p q h; simp [getUnitParams, h]
  · intro p q h; simp [getUnitParams, h]

/-- C8 witness: a stored map that only pins Wind Speed to imperial leaves
the other two axes metric. -/
theorem getUnitParams_spec_witness :
    (getUnitParams [("Wind Speed", "imperial")]).1.temperature = TempUnit.celsius ∧
    (getUnitParams [("Wind Speed", "imperial")]).1.precipitation = PrecipUnit.mm :=
  ⟨getUnitParams_spec.2.1 [("Wind Speed", "imperial")] (by decide),
   getUnitParams_spec.2.2.2.1 [("Wind Speed", "imperial")] (by decide)⟩

/-- C9: over the three dropdown sections, the derived system label is
"metric" iff all axes are metric, "imperial" iff all are imperial, and
"mixed" for every other combination; the switch button reads "Custom units"
when exactly one or two axes are imperial and "Switch to Metric" when all
three are. -/
theorem getCurrentSystem_spec :
    ∀ a b c : UnitChoice,
      ((a = UnitChoice.metric ∧ b = UnitChoice.metric ∧ c = UnitChoice.metric) →
         getCurrentSystem [some a, some b, some c] = SystemState.metric) ∧
      ((a = UnitChoice.imperial ∧ b = UnitChoice.imperial ∧ c = UnitChoice.imperial) →
         getCurrentSystem [some a, some b, some c] = SystemState.imperial) ∧
      ((¬(a = UnitChoice.metric ∧ b = UnitChoice.metric ∧ c = UnitChoice.metric) ∧
        ¬(a = UnitChoice.imperial ∧ b = UnitChoice.imperial ∧ c = UnitChoice.imperial)) →
         getCurrentSystem [some a, some b, some c] = SystemState.mixed) ∧
      (([a, b, c].count UnitChoice.imperial = 1 ∨
        [a, b, c].count UnitChoice.imperial = 2) →
         (switchButtonFor [some a, some b, some c]).text = "Custom units") ∧
      ([a, b, c].count UnitChoice.imperial = 3 →
         (switchButtonFor [some a, some b, some c]).text = "Switch to Metric") := by
  intro a b c
  cases a <;> cases b <;> cases c <;> decide

/-- C9 witness: one axis imperial shows "Custom units"; all three imperial
show "Switch to Metric". -/
theorem getCurrentSystem_spec_witness :
    (switchButtonFor [some UnitChoice.imperial, some UnitChoice.metric,
        some UnitChoice.metric]).text = "Custom units" ∧
    (switchButtonFor [some UnitChoice.imperial, some UnitChoice.imperial,
        some UnitChoice.imperial]).text = "Switch to Metric" :=
  ⟨(getCurrentSystem_spec UnitChoice.imperial UnitChoice.metric
      UnitChoice.metric).2.2.2.1 (by decide),
   (getCurrentSystem_spec UnitChoice.imperial UnitChoice.imperial
      UnitChoice.imperial).2.2.2.2 (by decide)⟩

/-! ## Concrete fixtures for witnesses and counterexamples -/

/-- A small concrete forecast payload. -/
def wA : WeatherResponse :=
  { current_weather := { temperature := 20, windspeed := 5, weathercode := 0,
                         time := ⟨0, 12, 0⟩ }
    hourly := { time := [⟨0, 0, 0⟩, ⟨0, 13, 0⟩], temperature_2m := [18, 22],
                weathercode := [0, 2], apparent_temperature := [18, 22],
                relative_humidity_2m := [40, 45], precipitation := [0, 0] }
    daily := { time := [0], temperature_2m_min := [10], temperature_2m_max := [25],
               weathercode := [0] } }

/-- A second, distinct concrete forecast payload. -/
def wB : WeatherResponse :=
  { current_weather := { temperature := 3, windspeed := 9, weathercode := 61,
                         time := ⟨1, 12, 0⟩ }
    hourly := { time := [⟨1, 0, 0⟩], temperature_2m := [2], weathercode := [61],
                apparent_temperature := [0], relative_humidity_2m := [80],
                precipitation := [1] }
    daily := { time := [1], temperature_2m_min := [1], temperature_2m_max := [5],
               weathercode := [61] } }

/-- A concrete geocoding result. -/
def locA : Coordinates := { latitude := 31, longitude := 35,
                            name := "Amman", country := "Jordan" }

/-- The initial `currentUnits` (lines 47-51). -/
def initUnits : Units := { temperature := TempUnit.celsius, wind := WindUnit.kmh,
                           precipitation := PrecipUnit.mm }

/-- An initial DOM flag assignment.  The HTML template is not part of the
source under verification; none of the run conclusions below depend on
these start values (every flag they mention is written by the run first). -/
def initDom : Dom :=
  { errorFetchHidden := true, mainContentHidden := false, searchConHidden := false,
    noResultHidden := true, loadingConHidden := false, searchLoadingHidden := true,
    searchBtnDisabled := false, todaySectionHidden := false, todaySectionBgShow := false,
    mainContTodayHidden := false, infoCardsHidden := false, forecastHidden := false,
    hourForecastHidden := false, weatherIconHidden := false, todayCardBgShow := false }

/-- The module state at startup (lines 47-55): counter 0, `lastCity`
"Amman", no snapshot, metric units, no persisted preferences. -/
def g0 : GState :=
  { latestRequestId := 0, lastCity := "Amman", lastWeatherData := none,
    currentUnits := initUnits, prefs := [], dom := initDom, renderLog := [] }

/-- A fetch environment for a city the geocoder does not know. -/
def spNW : TaskSpec :=
  { city := "Nowhere", showLoader := true, geo := GeoOutcome.geoEmpty,
    fetchRes := FetchOutcome.httpError, domMissing := false }

/-! ## Step-level facts about the task machine -/

/-- A step never returns a task to the un-started state. -/
theorem stepTask_phase_ne_idle (g : GState) (t : Task) :
    (stepTask g t).2.phase ≠ Phase.idle := by
  rcases t with ⟨⟨city, sl, geo, fr, dm⟩, ph, rid⟩
  cases ph <;> cases geo <;> cases fr <;>
    simp [stepTask] <;> split_ifs <;> simp

/-- Only the synchronous head of a call (the `idle` segment, line 527)
writes `lastCity`. -/
theorem stepTask_lastCity (g : GState) (t : Task) (h : t.phase ≠ Phase.idle) :
    (stepTask g t).1.lastCity = g.lastCity := by
  rcases t with ⟨⟨city, sl, geo, fr, dm⟩, ph, rid⟩
  cases ph <;> cases geo <;> cases fr <;>
    simp_all [stepTask] <;> split_ifs <;> simp

/-- Only the post-`res.json()` segment (line 578) writes `lastWeatherData`. -/
theorem stepTask_lastWeatherData (g : GState) (t : Task)
    (h : t.phase ≠ Phase.atJson) :
    (stepTask g t).1.lastWeatherData = g.lastWeatherData := by
  rcases t with ⟨⟨city, sl, geo, fr, dm⟩, ph, rid⟩
  cases ph <;> cases geo <;> cases fr <;>
    simp_all [stepTask] <;> split_ifs <;> simp

/-- A step of a task whose captured id differs from the live counter never
extends the render log. -/
theorem stepTask_renderLog_stale (g : GState) (t : Task)
    (hs : t.reqId ≠ g.latestRequestId) :
    (stepTask g t).1.renderLog = g.renderLog := by
  rcases t with ⟨⟨city, sl, geo, fr, dm⟩, ph, rid⟩
  simp only at hs
  cases ph <;> cases geo <;> cases fr <;> simp_all [stepTask]

/-- The stale return at the post-geocode checkpoint (line 541) has no
effect: global state unchanged, loaders included. -/
theorem stepTask_atGeo_stale (g : GState) (t : Task) (hp : t.phase = Phase.atGeo)
    (hg : t.spec.geo ≠ GeoOutcome.geoError) (hs : t.reqId ≠ g.latestRequestId) :
    stepTask g t = (g, { t with phase := Phase.done }) := by
  rcases t with ⟨⟨city, sl, geo, fr, dm⟩, ph, rid⟩
  simp only at hp hg hs
  subst hp
  cases geo <;> simp_all [stepTask]

/-- The stale return at the pre-render checkpoint (line 581) has no
effect. -/
theorem stepTask_atOkWait_stale (g : GState) (t : Task)
    (hp : t.phase = Phase.atOkWait) (hs : t.reqId ≠ g.latestRequestId) :
    stepTask g t = (g, { t with phase := Phase.done }) := by
  rcases t with ⟨⟨city, sl, geo, fr, dm⟩, ph, rid⟩
  simp only at hp hs
  subst hp
  cases fr <;> simp_all [stepTask]

/-- The stale return at the pre-error-panel checkpoint (line 633) has no
effect. -/
theorem stepTask_atErrWait_stale (g : GState) (t : Task)
    (hp : t.phase = Phase.atErrWait) (hs : t.reqId ≠ g.latestRequestId) :
    stepTask g t = (g, { t with phase := Phase.done }) := by
  rcases t with ⟨⟨city, sl, geo, fr, dm⟩, ph, rid⟩
  simp only at hp hs
  subst hp
  simp_all [stepTask]

/-- A stale task's step away from the `idle` and `atNoResWait` segments
leaves the DOM untouched. -/
theorem stepTask_dom_stale (g : GState) (t : Task)
    (hs : t.reqId ≠ g.latestRequestId) (h1 : t.phase ≠ Phase.idle)
    (h2 : t.phase ≠ Phase.atNoResWait) :
    (stepTask g t).1.dom = g.dom := by
  rcases t with ⟨⟨city, sl, geo, fr, dm⟩, ph, rid⟩
  simp only at hs h1 h2
  cases ph <;> cases geo <;> cases fr <;> simp_all [stepTask]

/-! ## C2 — effects of superseded tasks -/

/-- C2 (amended): a superseded task never renders; at the three
checkpoint-guarded continuations (post-geocode, pre-render, pre-error) it
returns with no effect at all, and away from the `idle` and empty-geocoding
continuations it leaves the DOM untouched; however the post-`res.json()`
segment (line 578) is not checkpointed, so a superseded task may still
overwrite `lastWeatherData` there, and the empty-geocoding continuation
(lines 546-553) is not checkpointed, so a superseded task may still change
panel visibility there. -/
theorem staleTask_effects (g : GState) (t : Task)
    (hs : t.reqId ≠ g.latestRequestId) :
    (stepTask g t).1.renderLog = g.renderLog ∧
    (t.phase ≠ Phase.atJson → (stepTask g t).1.lastWeatherData = g.lastWeatherData) ∧
    (t.phase ≠ Phase.idle → t.phase ≠ Phase.atNoResWait →
        (stepTask g t).1.dom = g.dom) ∧
    (t.phase = Phase.atGeo → t.spec.geo ≠ GeoOutcome.geoError →
        stepTask g t = (g, { t with phase := Phase.done })) ∧
    (t.phase = Phase.atOkWait → stepTask g t = (g, { t with phase := Phase.done })) ∧
    (t.phase = Phase.atErrWait → stepTask g t = (g, { t with phase := Phase.done })) :=
  ⟨stepTask_renderLog_stale g t hs,
   fun h => stepTask_lastWeatherData g t h,
   fun h1 h2 => stepTask_dom_stale g t hs h1 h2,
   fun hp hg => stepTask_atGeo_stale g t hp hg hs,
   fun hp => stepTask_atOkWait_stale g t hp hs,
   fun hp => stepTask_atErrWait_stale g t hp hs⟩

/-- C2 witness: a concrete superseded task parked at the pre-render
checkpoint returns without effect. -/
theorem staleTask_effects_witness :
    stepTask { g0 with latestRequestId := 2 }
        { spec := spNW, phase := Phase.atOkWait, reqId := 1 } =
      ({ g0 with latestRequestId := 2 },
       { spec := spNW, phase := Phase.done, reqId := 1 }) :=
  (staleTask_effects { g0 with latestRequestId := 2 }
      { spec := spNW, phase := Phase.atOkWait, reqId := 1 }
      (by decide)).2.2.2.2.1 rfl

/-- The system after: search "Paris" (request 1), let request 1 pass
geocoding and its forecast fetch resolve, then search "Amman" (request 2,
so request 1 is superseded), with request 1 now parked at `res.json()`. -/
def c2pre : Sys :=
  run (searchClick (run (searchClick (Sys.mk g0 []) "Paris"
        (GeoOutcome.geoFound locA) (FetchOutcome.ok wA) false) [0, 0])
      "Amman" (GeoOutcome.geoFound locA) (FetchOutcome.ok wB) false) [1, 0]

/-- C2 counterexample: the superseded request 1 (live counter 2) performs
its post-`res.json()` segment and overwrites the authoritative snapshot
`lastWeatherData`, which the claim says a superseded task never mutates. -/
theorem staleOverwrite_counterexample :
    c2pre.g.latestRequestId = 2 ∧
    (c2pre.tasks[0]?).map Task.reqId = some 1 ∧
    (c2pre.tasks[0]?).map Task.phase = some Phase.atJson ∧
    c2pre.g.lastWeatherData = none ∧
    (stepSys c2pre 0).g.lastWeatherData = some wA := by decide

/-! ## C3 — no cleanup on stale return paths -/

/-- C3 (amended): when a staleness check fires (lines 541, 581, 633) the
operation returns immediately with **no** side effects at all — in
particular it does not hide the search loader or the loading panel; the
cleanup calls run only on the non-stale continuations. -/
theorem staleReturn_no_cleanup (g : GState) (t : Task)
    (hs : t.reqId ≠ g.latestRequestId) :
    (t.phase = Phase.atGeo → t.spec.geo ≠ GeoOutcome.geoError →
        (stepTask g t).1.dom.searchLoadingHidden = g.dom.searchLoadingHidden ∧
        (stepTask g t).1.dom.loadingConHidden = g.dom.loadingConHidden ∧
        stepTask g t = (g, { t with phase := Phase.done })) ∧
    (t.phase = Phase.atOkWait →
        (stepTask g t).1.dom.searchLoadingHidden = g.dom.searchLoadingHidden ∧
        (stepTask g t).1.dom.loadingConHidden = g.dom.loadingConHidden ∧
        stepTask g t = (g, { t with phase := Phase.done })) ∧
    (t.phase = Phase.atErrWait →
        (stepTask g t).1.dom.searchLoadingHidden = g.dom.searchLoadingHidden ∧
        (stepTask g t).1.dom.loadingConHidden = g.dom.loadingConHidden ∧
        stepTask g t = (g, { t with phase := Phase.done })) := by
  refine ⟨fun hp hg => ?_, fun hp => ?_, fun hp => ?_⟩
  · rw [stepTask_atGeo_stale g t hp hg hs]; exact ⟨rfl, rfl, rfl⟩
  · rw [stepTask_atOkWait_stale g t hp hs]; exact ⟨rfl, rfl, rfl⟩
  · rw [stepTask_atErrWait_stale g t hp hs]; exact ⟨rfl, rfl, rfl⟩

/-- C3 witness: the concrete superseded task at the pre-error checkpoint
returns leaving the loader flags exactly as they were. -/
theorem staleReturn_no_cleanup_witness :
    stepTask { g0 with latestRequestId := 2 }
        { spec := spNW, phase := Phase.atErrWait, reqId := 1 } =
      ({ g0 with latestRequestId := 2 },
       { spec := spNW, phase := Phase.done, reqId := 1 }) :=
  ((staleReturn_no_cleanup { g0 with latestRequestId := 2 }
      { spec := spNW, phase := Phase.atErrWait, reqId := 1 }
      (by decide)).2.2 rfl).2.2

/-- The system after: search "Paris" (request 1, loaders shown), then
search "Amman" (request 2) while request 1 is parked at geocoding. -/
def c3pre : Sys :=
  run (searchClick (run (searchClick (Sys.mk g0 []) "Paris"
        (GeoOutcome.geoFound locA) (FetchOutcome.ok wA) false) [0])
      "Amman" (GeoOutcome.geoFound locA) (FetchOutcome.ok wB) false) [1]

/-- C3 counterexample: request 1's staleness check at the post-geocode
checkpoint fires (the task returns: phase `done`, captured id 1 against
live counter 2), yet neither the search loader nor the loading panel is
hidden — the claimed cleanup does not happen. -/
theorem staleReturn_counterexample :
    c3pre.g.latestRequestId = 2 ∧
    (c3pre.tasks[0]?).map Task.reqId = some 1 ∧
    (c3pre.tasks[0]?).map Task.phase = some Phase.atGeo ∧
    ((stepSys c3pre 0).tasks[0]?).map Task.phase = some Phase.done ∧
    (stepSys c3pre 0).g.dom.searchLoadingHidden = false ∧
    (stepSys c3pre 0).g.dom.loadingConHidden = false := by decide

/-! ## C6 — error routing -/

/-- C6 (amended): the no-results continuation is entered only from an
empty geocoding outcome whose request was still current at the post-geocode
checkpoint, and only that continuation (which runs after its artificial
delay) un-hides the no-results panel; the error panel is un-hidden only by
the post-delay error continuation and only while the request is still
current; and the error continuation is entered only from a geocoding
failure, a non-ok forecast response, a malformed payload, or missing
render-target elements.  (Unlike the error panel, the no-results panel is
not re-guarded after its delay: currency is only checked before it.) -/
theorem errorRouting_spec (g : GState) (t : Task) :
    ((stepTask g t).2.phase = Phase.atNoResWait →
        t.phase = Phase.atGeo ∧ t.spec.geo = GeoOutcome.geoEmpty ∧
        t.reqId = g.latestRequestId) ∧
    ((stepTask g t).1.dom.noResultHidden = false → g.dom.noResultHidden = true →
        t.phase = Phase.atNoResWait) ∧
    ((stepTask g t).1.dom.errorFetchHidden = false → g.dom.errorFetchHidden = true →
        t.phase = Phase.atErrWait ∧ t.reqId = g.latestRequestId) ∧
    ((stepTask g t).2.phase = Phase.atErrWait →
        t.spec.geo = GeoOutcome.geoError ∨ t.spec.fetchRes = FetchOutcome.httpError ∨
        t.spec.fetchRes = FetchOutcome.badPayload ∨ t.spec.domMissing = true) := by
  rcases t with ⟨⟨city, sl, geo, fr, dm⟩, ph, rid⟩
  cases ph <;> cases geo <;> cases fr <;> cases dm <;> cases sl <;>
    simp [stepTask, showLoading, showError, showSuccess, showAllData, hideAllData,
      hideSearchLoading, showSearchLoading] <;>
    split_ifs <;>
    simp_all [showError, showSuccess, showAllData, hideAllData, hideSearchLoading]

/-- C6 witness: a current empty-geocoding request at the post-geocode
checkpoint is routed to the no-results continuation. -/
theorem errorRouting_spec_witness :
    (stepTask { g0 with latestRequestId := 1 }
        { spec := spNW, phase := Phase.atGeo, reqId := 1 }).2.phase =
        Phase.atNoResWait ∧
    ({ spec := spNW, phase := Phase.atGeo, reqId := 1 } : Task).phase = Phase.atGeo ∧
    spNW.geo = GeoOutcome.geoEmpty ∧ (1 : Nat) = 1 :=
  ⟨by decide,
   (errorRouting_spec { g0 with latestRequestId := 1 }
      { spec := spNW, phase := Phase.atGeo, reqId := 1 }).1 (by decide)⟩

/-- The system after: search "Nowhere" (request 1, geocoder finds nothing,
request passes the post-geocode checkpoint into the no-results delay), then
search "Amman" (request 2), with request 1 still parked at its delay. -/
def c6pre : Sys :=
  run (searchClick (run (searchClick (Sys.mk g0 []) "Nowhere"
        GeoOutcome.geoEmpty FetchOutcome.httpError false) [0, 0])
      "Amman" (GeoOutcome.geoFound locA) (FetchOutcome.ok wA) false) [1]

/-- C6 counterexample: the superseded request 1 (captured id 1, live
counter 2) completes its no-results continuation and un-hides the
no-results panel — refuting "the panel is shown only if the originating
request's id still equals the live counter". -/
theorem noResultStale_counterexample :
    c6pre.g.latestRequestId = 2 ∧
    (c6pre.tasks[0]?).map Task.reqId = some 1 ∧
    (c6pre.tasks[0]?).map Task.phase = some Phase.atNoResWait ∧
    c6pre.g.dom.noResultHidden = true ∧
    (stepSys c6pre 0).g.dom.noResultHidden = false := by decide

/-! ## C10 — lastCity and the retry button -/

/-- C10: the synchronous head of every `fetchTodayWeather` call stores its
city argument into `lastCity` before any suspension (so before any network
call or validation); no later segment writes `lastCity`; hence after any
single-call run — successful or not — `lastCity` is the city that was
searched, and the retry handler issues its new call for exactly that
city. -/
theorem lastCity_retry_spec :
    (∀ (g : GState) (t : Task), t.phase = Phase.idle →
        (stepTask g t).1.lastCity = t.spec.city) ∧
    (∀ (g : GState) (t : Task), t.phase ≠ Phase.idle →
        (stepTask g t).1.lastCity = g.lastCity) ∧
    (∀ (s : Sys) (geo : GeoOutcome) (f : FetchOutcome) (dm : Bool),
        ∃ t, (retryClick s geo f dm).tasks.getLast? = some t ∧
          t.spec.city = s.g.lastCity ∧ t.phase = Phase.idle) ∧
    (∀ (g : GState) (sp : TaskSpec) (σ : List Nat),
        (run (Sys.mk g [mkTask sp]) (0 :: σ)).g.lastCity = sp.city) := by
  have hidle : ∀ (g : GState) (t : Task), t.phase = Phase.idle →
      (stepTask g t).1.lastCity = t.spec.city := by
    intro g t hp
    rcases t with ⟨⟨city, sl, geo, fr, dm⟩, ph, rid⟩
    simp only at hp
    subst hp
    simp [stepTask]
  have hsingle : ∀ (σ : List Nat) (g : GState) (t : Task), t.phase ≠ Phase.idle →
      (run (Sys.mk g [t]) σ).g.lastCity = g.lastCity := by
    intro σ
    induction σ with
    | nil => intro g t _; rfl
    | cons i σ ih =>
        intro g t ht
        show (run (stepSys (Sys.mk g [t]) i) σ).g.lastCity = g.lastCity
        cases i with
        | zero =>
            have hstep : stepSys (Sys.mk g [t]) 0 =
                Sys.mk (stepTask g t).1 [(stepTask g t).2] := rfl
            rw [hstep, ih (stepTask g t).1 (stepTask g t).2 (stepTask_phase_ne_idle g t),
              stepTask_lastCity g t ht]
        | succ j =>
            have hstep : stepSys (Sys.mk g [t]) (j + 1) = Sys.mk g [t] := rfl
            rw [hstep, ih g t ht]
  refine ⟨hidle, fun g t h => stepTask_lastCity g t h, ?_, ?_⟩
  · intro s geo f dm
    refine ⟨mkTask { city := s.g.lastCity, showLoader := true,
                     geo := geo, fetchRes := f, domMissing := dm }, ?_, rfl, rfl⟩
    exact List.getLast?_concat _
  · intro g sp σ
    show (run (stepSys (Sys.mk g [mkTask sp]) 0) σ).g.lastCity = sp.city
    have hstep : stepSys (Sys.mk g [mkTask sp]) 0 =
        Sys.mk (stepTask g (mkTask sp)).1 [(stepTask g (mkTask sp)).2] := rfl
    rw [hstep, hsingle σ _ _ (stepTask_phase_ne_idle g (mkTask sp)),
      hidle g (mkTask sp) rfl]
    rfl

/-- C10 witness: a failed search for "Nowhere" leaves `lastCity` =
"Nowhere", and the retry button's call is for "Nowhere" — not for the
previously successful city. -/
theorem lastCity_retry_spec_witness :
    (run (Sys.mk g0 [mkTask spNW]) (0 :: [0, 0])).g.lastCity = "Nowhere" ∧
    (∃ t, (retryClick (run (Sys.mk g0 [mkTask spNW]) (0 :: [0, 0]))
        GeoOutcome.geoEmpty FetchOutcome.httpError false).tasks.getLast? = some t ∧
      t.spec.city = "Nowhere" ∧ t.phase = Phase.idle) := by
  constructor
  · exact lastCity_retry_spec.2.2.2 g0 spNW [0, 0]
  · have h := lastCity_retry_spec.2.2.1 (run (Sys.mk g0 [mkTask spNW]) (0 :: [0, 0]))
      GeoOutcome.geoEmpty FetchOutcome.httpError false
    rcases h with ⟨t, h1, h2, h3⟩
    exact ⟨t, h1, by rw [h2]; exact lastCity_retry_spec.2.2.2 g0 spNW [0, 0], h3⟩

/-! ## C7 — the empty-geocoding outcome never touches the snapshot -/

/-- A task whose geocoding came back empty can never sit at the forecast
fetch or its json step, and its steps preserve `lastWeatherData`. -/
theorem stepTask_geoEmpty_safe (g : GState) (t : Task)
    (hsp : t.spec.geo = GeoOutcome.geoEmpty)
    (h1 : t.phase ≠ Phase.atFetch) (h2 : t.phase ≠ Phase.atJson) :
    (stepTask g t).1.lastWeatherData = g.lastWeatherData ∧
    (stepTask g t).2.spec = t.spec ∧
    (stepTask g t).2.phase ≠ Phase.atFetch ∧
    (stepTask g t).2.phase ≠ Phase.atJson := by
  rcases t with ⟨⟨city, sl, geo, fr, dm⟩, ph, rid⟩
  simp only at hsp h1 h2
  subst hsp
  cases ph <;> cases fr <;> simp_all [stepTask] <;> split_ifs <;> simp_all

/-- C7: a `fetchTodayWeather` run whose geocoding finds no city leaves the
stored snapshot `lastWeatherData` exactly as it was before the search,
whatever schedule its segments run under. -/
theorem geoEmpty_preserves_snapshot (g : GState) (sp : TaskSpec) (σ : List Nat)
    (hsp : sp.geo = GeoOutcome.geoEmpty) :
    (run (Sys.mk g [mkTask sp]) σ).g.lastWeatherData = g.lastWeatherData := by
  have aux : ∀ (σ : List Nat) (g : GState) (t : Task),
      t.spec.geo = GeoOutcome.geoEmpty → t.phase ≠ Phase.atFetch →
      t.phase ≠ Phase.atJson →
      (run (Sys.mk g [t]) σ).g.lastWeatherData = g.lastWeatherData := by
    intro σ
    induction σ with
    | nil => intro g t _ _ _; rfl
    | cons i σ ih =>
        intro g t hg h1 h2
        show (run (stepSys (Sys.mk g [t]) i) σ).g.lastWeatherData = g.lastWeatherData
        cases i with
        | zero =>
            have hstep : stepSys (Sys.mk g [t]) 0 =
                Sys.mk (stepTask g t).1 [(stepTask g t).2] := rfl
            obtain ⟨e1, e2, e3, e4⟩ := stepTask_geoEmpty_safe g t hg h1 h2
            rw [hstep, ih _ _ (by rw [e2]; exact hg) e3 e4, e1]
        | succ j =>
            have hstep : stepSys (Sys.mk g [t]) (j + 1) = Sys.mk g [t] := rfl
            rw [hstep, ih g t hg h1 h2]
  exact aux σ g (mkTask sp) hsp (by simp [mkTask]) (by simp [mkTask])

/-- C7 witness: a search for "Nowhere" run to completion shows the
no-results panel while the previously stored snapshot is still in place. -/
theorem geoEmpty_preserves_snapshot_witness :
    (run (Sys.mk { g0 with lastWeatherData := some wA } [mkTask spNW])
        [0, 0, 0]).g.lastWeatherData = some wA ∧
    (run (Sys.mk { g0 with lastWeatherData := some wA } [mkTask spNW])
        [0, 0, 0]).g.dom.noResultHidden = false := by
  constructor
  · exact geoEmpty_preserves_snapshot { g0 with lastWeatherData := some wA }
      spNW [0, 0, 0] rfl
  · decide

/-! ## C1 — last-issued-wins under rapid triggers

Component facts about one step, used by the schedule invariant. -/

/-- A step never changes a task's environment. -/
theorem stepTask_spec (g : GState) (t : Task) : (stepTask g t).2.spec = t.spec := by
  rcases t with ⟨⟨city, sl, geo, fr, dm⟩, ph, rid⟩
  cases ph <;> cases geo <;> cases fr <;>
    simp [stepTask] <;> split_ifs <;> simp

/-- After the call head has run, a task's captured id never changes. -/
theorem stepTask_reqId (g : GState) (t : Task) (h : t.phase ≠ Phase.idle) :
    (stepTask g t).2.reqId = t.reqId := by
  rcases t with ⟨⟨city, sl, geo, fr, dm⟩, ph, rid⟩
  simp only at h
  cases ph <;> cases geo <;> cases fr <;>
    simp_all [stepTask] <;> split_ifs <;> simp_all

/-- Only the call head (line 528) increments the live counter. -/
theorem stepTask_latest (g : GState) (t : Task) (h : t.phase ≠ Phase.idle) :
    (stepTask g t).1.latestRequestId = g.latestRequestId := by
  rcases t with ⟨⟨city, sl, geo, fr, dm⟩, ph, rid⟩
  simp only at h
  cases ph <;> cases geo <;> cases fr <;>
    simp_all [stepTask] <;> split_ifs <;> simp_all

/-- A superseded task whose phase lies in the closed set
{`atGeo`, `atErrWait`, `done`} steps without touching the global state at
all and stays inside that set. -/
theorem stepTask_stale_frozen (g : GState) (t : Task)
    (hs : t.reqId ≠ g.latestRequestId)
    (hg : t.phase = Phase.atGeo ∨ t.phase = Phase.atErrWait ∨ t.phase = Phase.done) :
    (stepTask g t).1 = g ∧
    ((stepTask g t).2.phase = Phase.atGeo ∨ (stepTask g t).2.phase = Phase.atErrWait ∨
      (stepTask g t).2.phase = Phase.done) := by
  rcases t with ⟨⟨city, sl, geo, fr, dm⟩, ph, rid⟩
  simp only at hs
  rcases hg with hp | hp | hp <;> simp only at hp <;> subst hp <;>
    cases geo <;> simp_all [stepTask]

/-- The only way into the pre-render suspension is the post-`res.json()`
segment with a good payload — which has just stored that payload into
`lastWeatherData`. -/
theorem stepTask_to_okWait (g : GState) (t : Task)
    (h : (stepTask g t).2.phase = Phase.atOkWait) :
    ∃ d, t.spec.fetchRes = FetchOutcome.ok d ∧
      (stepTask g t).1.lastWeatherData = some d := by
  rcases t with ⟨⟨city, sl, geo, fr, dm⟩, ph, rid⟩
  cases ph <;> cases geo <;> cases fr <;> simp_all [stepTask] <;>
    split_ifs at h

/-- A step either leaves the render log alone or is a current task's
render segment, appending exactly one event: the task's own payload, the
live-counter id, and — for the hourly panel — the shared snapshot as it
stands at render time. -/
theorem stepTask_renderLog_append (g : GState) (t : Task) :
    (stepTask g t).1.renderLog = g.renderLog ∨
    ∃ d, t.phase = Phase.atOkWait ∧ t.reqId = g.latestRequestId ∧
      t.spec.fetchRes = FetchOutcome.ok d ∧
      (stepTask g t).1.renderLog = g.renderLog ++
        [RenderEvent.mk t.reqId d
          (if d.daily.time.isEmpty then none else g.lastWeatherData)] := by
  rcases t with ⟨⟨city, sl, geo, fr, dm⟩, ph, rid⟩
  cases ph <;> cases geo <;> cases fr <;>
    simp [stepTask] <;> split_ifs <;> simp_all

/-- The call head: counter incremented, snapshot and render log untouched,
the task suspended at geocoding with the fresh counter value captured. -/
theorem stepTask_idle (g : GState) (t : Task) (h : t.phase = Phase.idle) :
    (stepTask g t).1.latestRequestId = g.latestRequestId + 1 ∧
    (stepTask g t).1.renderLog = g.renderLog ∧
    (stepTask g t).1.lastWeatherData = g.lastWeatherData ∧
    (stepTask g t).2.spec = t.spec ∧ (stepTask g t).2.phase = Phase.atGeo ∧
    (stepTask g t).2.reqId = g.latestRequestId + 1 := by
  rcases t with ⟨⟨city, sl, geo, fr, dm⟩, ph, rid⟩
  simp only at h
  subst h
  simp [stepTask]

/-- Splitting a schedule. -/
theorem run_append (s : Sys) (a b : List Nat) : run s (a ++ b) = run (run s a) b :=
  List.foldl_append _ _ _ _

/-- The state invariant after `specs.length` rapid triggers (the N call
heads have all run, in order, from a quiescent start): the live counter is
`base + N`; slot `k` holds the task of the `k`-th trigger, with captured id
`base + k + 1`; every superseded task (all but the last) sits in the closed
set {`atGeo`, `atErrWait`, `done`}; if the last task has reached the
pre-render suspension, the shared snapshot holds its payload; and every
logged render belongs to the last trigger: its id is the final counter
value, its payload the last trigger's, and the hourly panel drew on that
same payload (or on nothing, when its daily series is empty). -/
structure RapidInv (base : Nat) (specs : List TaskSpec) (s : Sys) : Prop where
  latest : s.g.latestRequestId = base + specs.length
  len : s.tasks.length = specs.length
  task : ∀ k, (hk : k < specs.length) → ∃ t, s.tasks[k]? = some t ∧
      t.spec = specs.get ⟨k, hk⟩ ∧ t.reqId = base + k + 1 ∧ t.phase ≠ Phase.idle ∧
      (k + 1 < specs.length →
        (t.phase = Phase.atGeo ∨ t.phase = Phase.atErrWait ∨ t.phase = Phase.done))
  okw : ∀ t, s.tasks[specs.length - 1]? = some t → t.phase = Phase.atOkWait →
      ∃ d, t.spec.fetchRes = FetchOutcome.ok d ∧ s.g.lastWeatherData = some d
  renders : ∀ e ∈ s.g.renderLog, e.reqId = base + specs.length ∧
      ∃ sp d, specs.getLast? = some sp ∧ sp.fetchRes = FetchOutcome.ok d ∧
        e.data = d ∧ (e.hourlyFrom = none ∨ e.hourlyFrom = some d)

/-- Rebuilding the invariant after one slot is overwritten. -/
theorem RapidInv_set (base : Nat) (specs : List TaskSpec) (s : Sys)
    (h : RapidInv base specs s) (i : Nat) (hi : i < specs.length)
    (t t' : Task) (g' : GState)
    (hget : s.tasks[i]? = some t)
    (hlatest : g'.latestRequestId = s.g.latestRequestId)
    (hspec : t'.spec = t.spec) (hreq : t'.reqId = t.reqId)
    (hnid : t'.phase ≠ Phase.idle)
    (hguard : i + 1 < specs.length →
        (t'.phase = Phase.atGeo ∨ t'.phase = Phase.atErrWait ∨ t'.phase = Phase.done))
    (hok : t'.phase = Phase.atOkWait →
        ∃ d, t'.spec.fetchRes = FetchOutcome.ok d ∧ g'.lastWeatherData = some d)
    (hlwd : i + 1 < specs.length → g'.lastWeatherData = s.g.lastWeatherData)
    (hlog : ∀ e ∈ g'.renderLog, e.reqId = base + specs.length ∧
        ∃ sp d, specs.getLast? = some sp ∧ sp.fetchRes = FetchOutcome.ok d ∧
          e.data = d ∧ (e.hourlyFrom = none ∨ e.hourlyFrom = some d)) :
    RapidInv base specs (Sys.mk g' (s.tasks.set i t')) := by
  have hlen : i < s.tasks.length := by rw [h.len]; exact hi
  refine ⟨?_, ?_, ?_, ?_, hlog⟩
  · rw [hlatest]; exact h.latest
  · simp [List.length_set, h.len]
  · intro k hk
    by_cases hik : k = i
    · subst hik
      obtain ⟨u, hu, hu1, hu2, _, _⟩ := h.task k hk
      have hut : u = t := Option.some.inj (hu.symm.trans hget)
      subst hut
      refine ⟨t', ?_, hspec.trans hu1, hreq.trans hu2, hnid, hguard⟩
      simp [List.getElem?_set_self, hlen]
    · obtain ⟨u, hu, h1, h2, h3, h4⟩ := h.task k hk
      refine ⟨u, ?_, h1, h2, h3, h4⟩
      rw [List.getElem?_set_ne (by omega : i ≠ k)]
      exact hu
  · intro u hu hph
    by_cases hik : i = specs.length - 1
    · have hu' : (s.tasks.set i t')[specs.length - 1]? = some t' := by
        rw [← hik]
        simp [List.getElem?_set_self, hlen]
      have hut : t' = u := Option.some.inj (hu'.symm.trans hu)
      subst hut
      exact hok hph
    · rw [List.getElem?_set_ne hik] at hu
      obtain ⟨d, hd1, hd2⟩ := h.okw u hu hph
      refine ⟨d, hd1, ?_⟩
      rw [hlwd (by omega)]
      exact hd2

/-- One scheduler step preserves the rapid-trigger invariant. -/
theorem RapidInv_step (base : Nat) (specs : List TaskSpec) (s : Sys)
    (h : RapidInv base specs s) (i : Nat) :
    RapidInv base specs (stepSys s i) := by
  by_cases hi : i < specs.length
  · obtain ⟨t, hget, hspec, hreq, hnid, hguard⟩ := h.task i hi
    have hs : stepSys s i =
        Sys.mk (stepTask s.g t).1 (s.tasks.set i (stepTask s.g t).2) := by
      unfold stepSys
      rw [hget]
    rw [hs]
    by_cases hlast : i + 1 < specs.length
    · -- a superseded slot: frozen by the staleness discipline
      have hstale : t.reqId ≠ s.g.latestRequestId := by
        rw [hreq, h.latest]; omega
      obtain ⟨hfroz, hph'⟩ := stepTask_stale_frozen s.g t hstale (hguard hlast)
      refine RapidInv_set base specs s h i hi t _ _ hget (by rw [hfroz])
        (stepTask_spec s.g t) (stepTask_reqId s.g t hnid)
        (stepTask_phase_ne_idle s.g t) (fun _ => hph') ?_ (fun _ => by rw [hfroz]) ?_
      · intro hok'
        rcases hph' with hp | hp | hp <;> rw [hok'] at hp <;> exact Phase.noConfusion hp
      · rw [hfroz]
        exact h.renders
    · -- the last slot: its id equals the live counter
      have hiN : i = specs.length - 1 := by omega
      subst hiN
      refine RapidInv_set base specs s h _ hi t _ _ hget
        (stepTask_latest s.g t hnid) (stepTask_spec s.g t)
        (stepTask_reqId s.g t hnid) (stepTask_phase_ne_idle s.g t)
        (fun hcon => absurd hcon hlast) ?_ (fun hcon => absurd hcon hlast) ?_
      · intro hph
        obtain ⟨d, hd1, hd2⟩ := stepTask_to_okWait s.g t hph
        refine ⟨d, ?_, hd2⟩
        rw [stepTask_spec s.g t]
        exact hd1
      · rcases stepTask_renderLog_append s.g t with hsame | ⟨d, hph, _, hfr, happ⟩
        · intro e he
          rw [hsame] at he
          exact h.renders e he
        · intro e he
          rw [happ] at he
          rcases List.mem_append.1 he with hold | hnew
          · exact h.renders e hold
          · have he' : e = RenderEvent.mk t.reqId d
                (if d.daily.time.isEmpty then none else s.g.lastWeatherData) :=
              List.mem_singleton.1 hnew
            subst he'
            refine ⟨?_, specs.get ⟨specs.length - 1, hi⟩, d, ?_, ?_, rfl, ?_⟩
            · show t.reqId = base + specs.length
              rw [hreq]
              omega
            · rw [List.getLast?_eq_getElem? specs]
              exact List.getElem?_eq_getElem hi
            · rw [← hspec]
              exact hfr
            · show (if d.daily.time.isEmpty then none else s.g.lastWeatherData) = none ∨
                (if d.daily.time.isEmpty then none else s.g.lastWeatherData) = some d
              by_cases hemp : d.daily.time.isEmpty
              · rw [if_pos hemp]
                exact Or.inl rfl
              · rw [if_neg hemp]
                obtain ⟨d', hd1', hd2'⟩ := h.okw t hget hph
                have hdd : d' = d := FetchOutcome.ok.inj (hd1'.symm.trans hfr)
                subst hdd
                exact Or.inr (by rw [hd2'])
  · have hnone : s.tasks[i]? = none := List.getElem?_eq_none (by rw [h.len]; omega)
    have hs : stepSys s i = s := by
      unfold stepSys
      rw [hnone]
    rw [hs]
    exact h

/-- The rapid-trigger invariant holds along every completion schedule. -/
theorem RapidInv_run (base : Nat) (specs : List TaskSpec) :
    ∀ (σ : List Nat) (s : Sys),
      RapidInv base specs s → RapidInv base specs (run s σ) := by
  intro σ
  induction σ with
  | nil => intro s h; exact h
  | cons i σ ih =>
      intro s h
      show RapidInv base specs (run (stepSys s i) σ)
      exact ih (stepSys s i) (RapidInv_step base specs s h i)

/-- Running the N call heads in order, from a quiescent start: counter
advanced by the number of started calls, snapshot and log untouched, each
started task parked at geocoding with its issue-order id, the rest still
pending. -/
theorem run_starts (g0 : GState) (specs : List TaskSpec) :
    ∀ m : Nat, m ≤ specs.length →
      (run (mkSys g0 specs) (List.range m)).g.latestRequestId = g0.latestRequestId + m ∧
      (run (mkSys g0 specs) (List.range m)).g.renderLog = g0.renderLog ∧
      (run (mkSys g0 specs) (List.range m)).g.lastWeatherData = g0.lastWeatherData ∧
      (run (mkSys g0 specs) (List.range m)).tasks.length = specs.length ∧
      ∀ k, (hk : k < specs.length) →
        ∃ t, (run (mkSys g0 specs) (List.range m)).tasks[k]? = some t ∧
          t.spec = specs.get ⟨k, hk⟩ ∧
          (k < m → t.reqId = g0.latestRequestId + k + 1 ∧ t.phase = Phase.atGeo) ∧
          (m ≤ k → t = mkTask (specs.get ⟨k, hk⟩)) := by
  intro m
  induction m with
  | zero =>
      intro _
      refine ⟨rfl, rfl, rfl, ?_, ?_⟩
      · show (specs.map mkTask).length = specs.length
        simp
      · intro k hk
        refine ⟨mkTask (specs.get ⟨k, hk⟩), ?_, rfl,
          fun hkm => absurd hkm (by omega), fun _ => rfl⟩
        show (specs.map mkTask)[k]? = some (mkTask (specs.get ⟨k, hk⟩))
        rw [List.getElem?_map, List.getElem?_eq_getElem hk]
        rfl
  | succ m ih =>
      intro hm
      obtain ⟨ih1, ih2, ih3, ih4, ih5⟩ := ih (by omega)
      have hrun : run (mkSys g0 specs) (List.range (m + 1)) =
          stepSys (run (mkSys g0 specs) (List.range m)) m := by
        rw [List.range_succ, run_append]
        rfl
      obtain ⟨t, hget, htspec, _, hidle⟩ := ih5 m (by omega)
      have htid : t = mkTask (specs.get ⟨m, by omega⟩) := hidle (le_refl m)
      have hs : stepSys (run (mkSys g0 specs) (List.range m)) m =
          Sys.mk (stepTask (run (mkSys g0 specs) (List.range m)).g t).1
            ((run (mkSys g0 specs) (List.range m)).tasks.set m
              (stepTask (run (mkSys g0 specs) (List.range m)).g t).2) := by
        unfold stepSys
        rw [hget]
      obtain ⟨e1, e2, e3, e4, e5, e6⟩ :=
        stepTask_idle (run (mkSys g0 specs) (List.range m)).g t (by rw [htid]; rfl)
      rw [hrun, hs]
      dsimp only
      refine ⟨?_, ?_, ?_, ?_, ?_⟩
      · rw [e1, ih1]
        omega
      · rw [e2, ih2]
      · rw [e3, ih3]
      · simp [List.length_set, ih4]
      · intro k hk
        by_cases hkm : k = m
        · subst hkm
          have hklen : k < (run (mkSys g0 specs) (List.range k)).tasks.length := by
            rw [ih4]; exact hk
          refine ⟨(stepTask (run (mkSys g0 specs) (List.range k)).g t).2, ?_, ?_, ?_, ?_⟩
          · simp [List.getElem?_set_self, hklen]
          · rw [e4]
            exact htspec
          · intro _
            refine ⟨?_, e5⟩
            rw [e6, ih1]
          · intro hcon
            exact absurd hcon (by omega)
        · obtain ⟨u, hu, h1, h2, h3⟩ := ih5 k hk
          refine ⟨u, ?_, h1, fun hk1 => h2 (by omega), fun hmk => h3 (by omega)⟩
          rw [List.getElem?_set_ne (fun he => hkm he.symm)]
          exact hu

/-- After all N call heads have run from a quiescent start, the
rapid-trigger invariant holds. -/
theorem RapidInv_after_starts (g0 : GState) (specs : List TaskSpec)
    (hlog : g0.renderLog = []) :
    RapidInv g0.latestRequestId specs
      (run (mkSys g0 specs) (List.range specs.length)) := by
  obtain ⟨h1, h2, h3, h4, h5⟩ := run_starts g0 specs specs.length (le_refl _)
  refine ⟨h1, h4, ?_, ?_, ?_⟩
  · intro k hk
    obtain ⟨t, hget, hs1, hs2, _⟩ := h5 k hk
    obtain ⟨hrid, hph⟩ := hs2 hk
    exact ⟨t, hget, hs1, hrid, by rw [hph]; simp, fun _ => Or.inl hph⟩
  · intro u hu hph
    by_cases hN : specs.length = 0
    · have : (run (mkSys g0 specs) (List.range specs.length)).tasks[specs.length - 1]? =
          none := List.getElem?_eq_none (by rw [h4]; omega)
      rw [this] at hu
      exact Option.noConfusion hu
    · obtain ⟨t, hget, _, hs2, _⟩ := h5 (specs.length - 1) (by omega)
      obtain ⟨_, hph'⟩ := hs2 (by omega)
      have hut : u = t := Option.some.inj (hu.symm.trans hget)
      subst hut
      rw [hph'] at hph
      exact Phase.noConfusion hph
  · intro e he
    rw [h2, hlog] at he
    exact absurd he (List.not_mem_nil e)

/-- C1: for any number of rapid triggers — all N call heads run (in order)
before any continuation, from a state with an empty render log — and any
completion schedule whatever, every render that ever happens carries the
final counter value `base + N` as its id (it is the Nth, most recently
issued, request), renders the Nth trigger's payload, and draws the hourly
panel from that same payload; and, at the post-fetch checkpoint (line 581),
a request whose captured id differs from the live counter returns without
rendering or any other effect. -/
theorem rapid_last_issued_wins (g0 : GState) (specs : List TaskSpec)
    (σ : List Nat) (hlog : g0.renderLog = []) :
    (∀ e ∈ (run (run (mkSys g0 specs) (List.range specs.length)) σ).g.renderLog,
        e.reqId = g0.latestRequestId + specs.length ∧
        ∃ sp d, specs.getLast? = some sp ∧ sp.fetchRes = FetchOutcome.ok d ∧
          e.data = d ∧ (e.hourlyFrom = none ∨ e.hourlyFrom = some d)) ∧
    (∀ (g : GState) (t : Task), t.phase = Phase.atOkWait →
        t.reqId ≠ g.latestRequestId →
        stepTask g t = (g, { t with phase := Phase.done })) := by
  refine ⟨?_, fun g t hp hs => stepTask_atOkWait_stale g t hp hs⟩
  exact (RapidInv_run g0.latestRequestId specs σ _
    (RapidInv_after_starts g0 specs hlog)).renders

/-- The first trigger's environment: "Paris", payload `wA`. -/
def spA : TaskSpec :=
  { city := "Paris", showLoader := true, geo := GeoOutcome.geoFound locA,
    fetchRes := FetchOutcome.ok wA, domMissing := false }

/-- The second trigger's environment: "Amman", payload `wB`. -/
def spB : TaskSpec :=
  { city := "Amman", showLoader := true, geo := GeoOutcome.geoFound locA,
    fetchRes := FetchOutcome.ok wB, domMissing := false }

/-- C1 witness: two rapid triggers, adversarial completion order (the
first request's geocoding resolves first), one render: it belongs to
request 2 and shows `wB` everywhere, the hourly panel included. -/
theorem rapid_last_issued_wins_witness :
    (RenderEvent.mk 2 wB (some wB)).reqId = g0.latestRequestId + 2 ∧
    (∃ sp d, [spA, spB].getLast? = some sp ∧ sp.fetchRes = FetchOutcome.ok d ∧
      (RenderEvent.mk 2 wB (some wB)).data = d ∧
      ((RenderEvent.mk 2 wB (some wB)).hourlyFrom = none ∨
       (RenderEvent.mk 2 wB (some wB)).hourlyFrom = some d)) :=
  (rapid_last_issued_wins g0 [spA, spB] [0, 1, 1, 1, 1, 0] rfl).1
    (RenderEvent.mk 2 wB (some wB)) (by decide)

end WeatherTask
